import Mathlib

/-!
Shallow embedding of the data-aggregation pipeline of src/app.py.

Modelling conventions, used throughout:
- Python strings are Lean String values; the Python str methods used by the
  code (strip, startswith, endswith, split, splitlines, replace, removesuffix)
  are re-implemented below over the character list, matching CPython behaviour.
- Python dictionaries are insertion-ordered association lists; setting an
  existing key updates it in place, a new key is appended at the end, exactly
  as CPython preserves insertion order.
- Fallible Python code is embedded into Except PyErr; PyErr.exitCode models
  sys.exit, PyErr.exc models an uncaught exception (TypeError, KeyError, an
  uncaught requests.RequestException, ...).
- The network (requests.get, including the header handling performed by
  make_github_request) is an explicit parameter net : String → Option Response,
  where none models a raised requests.RequestException and some r a received
  HTTP response. requests.Response.__bool__ is r.status_code < 400 (its ok
  property), which the code relies on; this is responseTruthy below.
- xml.etree.ElementTree.fromstring is an explicit parameter
  fromstring : String → Option XElem, where none models a raised ParseError
  and some a well-formed element tree.
-/

/-- Python exceptions and process termination: exitCode models sys.exit,
exc models an ordinary uncaught exception. -/
inductive PyErr where
  | exitCode : Nat → PyErr
  | exc : String → PyErr
  deriving DecidableEq

/-- JSON values as returned by Response.json(). -/
inductive JVal where
  | null : JVal
  | str : String → JVal
  | num : Int → JVal
  | obj : List (String × JVal) → JVal
  | arr : List JVal → JVal

/-- An HTTP response: status code, raw body text, and the parsed JSON body
(none when the body is not valid JSON, in which case Response.json() raises). -/
structure Response where
  status_code : Nat
  text : String
  json : Option JVal

/-- requests.Response truthiness: Response.__bool__ returns ok, which is
status_code < 400. -/
def responseTruthy (r : Response) : Bool :=
  decide (r.status_code < 400)

/-- Response.json(): the parsed body, raising when the body is not JSON. -/
def Response.getJson (r : Response) : Except PyErr JVal :=
  match r.json with
  | some v => Except.ok v
  | none => Except.error (PyErr.exc "JSONDecodeError")

/-! ### Python string primitives -/

/-- The whitespace characters stripped by str.strip() (ASCII range). -/
def isPySpace (c : Char) : Bool :=
  c == ' ' || c == '\t' || c == '\n' || c == '\r' || c == '\x0b' || c == '\x0c'

/-- str.strip(): remove leading and trailing whitespace. -/
def pyStrip (s : String) : String :=
  ⟨((s.data.dropWhile isPySpace).reverse.dropWhile isPySpace).reverse⟩

/-- Does the first list start with the second one? -/
def listStartsWith : List Char → List Char → Bool
  | _, [] => true
  | [], _ :: _ => false
  | a :: as, b :: bs => a == b && listStartsWith as bs

/-- str.startswith. -/
def pyStartsWith (s pat : String) : Bool :=
  listStartsWith s.data pat.data

/-- str.endswith. -/
def pyEndsWith (s pat : String) : Bool :=
  listStartsWith s.data.reverse pat.data.reverse

/-- The Python test `c in s` for a single character. -/
def pyContains (s : String) (c : Char) : Bool :=
  s.data.contains c

/-- Replace every (non-overlapping, left-to-right) occurrence of a non-empty
pattern. The fuel argument is the length of the scanned list, which bounds the
number of steps, so the zero-fuel case is unreachable. -/
def replaceFuel (pat rep : List Char) : Nat → List Char → List Char
  | _, [] => []
  | 0, s => s
  | fuel + 1, c :: rest =>
    if listStartsWith (c :: rest) pat then
      rep ++ replaceFuel pat rep fuel (List.drop pat.length (c :: rest))
    else
      c :: replaceFuel pat rep fuel rest

/-- str.replace: replace all occurrences; an empty pattern inserts the
replacement around every character, as in CPython. -/
def pyReplace (s pat rep : String) : String :=
  match pat.data with
  | [] => ⟨rep.data ++ s.data.flatMap (fun c => c :: rep.data)⟩
  | _ :: _ => ⟨replaceFuel pat.data rep.data s.data.length s.data⟩

/-- str.removesuffix. -/
def pyRemoveSuffix (s suf : String) : String :=
  if pyEndsWith s suf then ⟨s.data.take (s.data.length - suf.data.length)⟩ else s

/-- line.split(' ', 1): the part before the first space, and everything
after it (empty when there is no space). -/
def splitFirstSpace (s : String) : String × String :=
  (⟨s.data.takeWhile (fun c => c != ' ')⟩,
   ⟨(s.data.dropWhile (fun c => c != ' ')).drop 1⟩)

/-- Worker for str.splitlines over the character list; acc is the current
line, reversed. -/
def splitlinesGo : List Char → List Char → List String
  | [], acc => if acc.isEmpty then [] else [⟨acc.reverse⟩]
  | '\r' :: '\n' :: rest, acc => ⟨acc.reverse⟩ :: splitlinesGo rest []
  | '\n' :: rest, acc => ⟨acc.reverse⟩ :: splitlinesGo rest []
  | '\r' :: rest, acc => ⟨acc.reverse⟩ :: splitlinesGo rest []
  | c :: rest, acc => splitlinesGo rest (c :: acc)

/-- str.splitlines: split on line boundaries, no trailing empty line for a
trailing newline, empty result for the empty string. -/
def pySplitlines (s : String) : List String :=
  splitlinesGo s.data []

/-! ### Python dictionaries as insertion-ordered association lists -/

/-- Dictionary update for string keys: replace in place if present,
append if absent (CPython insertion order). -/
def sSet {α : Type} : List (String × α) → String → α → List (String × α)
  | [], k, v => [(k, v)]
  | (k2, v2) :: rest, k, v =>
    if k2 = k then (k, v) :: rest else (k2, v2) :: sSet rest k v

/-- Dictionary lookup for string keys. -/
def sGet {α : Type} : List (String × α) → String → Option α
  | [], _ => none
  | (k2, v2) :: rest, k => if k2 = k then some v2 else sGet rest k

mutual
/-- Structural equality of JSON values (Python ==). -/
def jvalEq : JVal → JVal → Bool
  | JVal.null, JVal.null => true
  | JVal.str a, JVal.str b => a == b
  | JVal.num a, JVal.num b => a == b
  | JVal.obj a, JVal.obj b => jvalFieldsEq a b
  | JVal.arr a, JVal.arr b => jvalArrEq a b
  | _, _ => false
def jvalFieldsEq : List (String × JVal) → List (String × JVal) → Bool
  | [], [] => true
  | (k1, v1) :: r1, (k2, v2) :: r2 => k1 == k2 && jvalEq v1 v2 && jvalFieldsEq r1 r2
  | _, _ => false
def jvalArrEq : List JVal → List JVal → Bool
  | [], [] => true
  | a :: r1, b :: r2 => jvalEq a b && jvalArrEq r1 r2
  | _, _ => false
end

/-- Dictionary update for JSON-valued keys. -/
def jdictSet : List (JVal × JVal) → JVal → JVal → List (JVal × JVal)
  | [], k, v => [(k, v)]
  | (k2, v2) :: rest, k, v =>
    if jvalEq k2 k then (k, v) :: rest else (k2, v2) :: jdictSet rest k v

/-- dict.get with a string key against a dictionary whose keys are JSON
values; a non-string stored key never equals a string key. -/
def jdictGetS : List (JVal × JVal) → String → Option JVal
  | [], _ => none
  | (JVal.str k, v) :: rest, key => if k = key then some v else jdictGetS rest key
  | _ :: rest, key => jdictGetS rest key

/-- Python truthiness of a JSON value (None, empty string, 0, empty
containers are falsy). -/
def jvalTruthy : JVal → Bool
  | JVal.null => false
  | JVal.str s => !s.data.isEmpty
  | JVal.num n => n != 0
  | JVal.obj d => !d.isEmpty
  | JVal.arr l => !l.isEmpty

/-- Python subscription v[k] with a string key: field lookup on an object
(KeyError when absent), TypeError on anything else. -/
def jvalIndex (v : JVal) (k : String) : Except PyErr JVal :=
  match v with
  | JVal.obj d =>
    match sGet d k with
    | some x => Except.ok x
    | none => Except.error (PyErr.exc ("KeyError: " ++ k))
  | JVal.str _ => Except.error (PyErr.exc "TypeError: string indices must be integers")
  | JVal.arr _ => Except.error (PyErr.exc "TypeError: list indices must be integers")
  | _ => Except.error (PyErr.exc "TypeError: not subscriptable")

/-- Python iteration over a JSON value: a list yields its elements, an
object yields its keys, a string yields its characters, anything else
raises TypeError. -/
def jvalIter : JVal → Except PyErr (List JVal)
  | JVal.arr l => Except.ok l
  | JVal.obj d => Except.ok (d.map (fun p => JVal.str p.1))
  | JVal.str s => Except.ok (s.data.map (fun c => JVal.str ⟨[c]⟩))
  | _ => Except.error (PyErr.exc "TypeError: not iterable")

/-- Using a str method such as endswith or replace on a non-string value
raises AttributeError. -/
def pyAsStr : JVal → Except PyErr String
  | JVal.str s => Except.ok s
  | _ => Except.error (PyErr.exc "AttributeError")

/-- Only non-container JSON values are hashable dictionary keys. -/
def jvalHashable : JVal → Bool
  | JVal.obj _ => false
  | JVal.arr _ => false
  | _ => true

/-! ### XML element trees (xml.etree.ElementTree) -/

/-- An ElementTree element: namespaced tag, attributes, children. -/
inductive XElem where
  | mk : String → List (String × String) → List XElem → XElem

def XElem.tag : XElem → String
  | XElem.mk t _ _ => t

def XElem.attrib : XElem → List (String × String)
  | XElem.mk _ a _ => a

def XElem.children : XElem → List XElem
  | XElem.mk _ _ c => c

/-- The fully qualified tag of a TEI page-break element, as ElementTree
renders namespaced tags. -/
def pbTag : String := "\x7bhttp://www.tei-c.org/ns/1.0\x7dpb"

mutual
/-- All proper descendants of an element, in document order (each child
followed by its own descendants), as ElementTree .// paths traverse. -/
def descendants : XElem → List XElem
  | XElem.mk _ _ cs => descendantsList cs
def descendantsList : List XElem → List XElem
  | [] => []
  | c :: rest => c :: (descendants c ++ descendantsList rest)
end

/-- root.findall with the .//pb path in the TEI namespace: every descendant
page-break element, in document order. -/
def teiPBs (root : XElem) : List XElem :=
  (descendants root).filter (fun e => e.tag == pbTag)

/-- ElementTree Element truthiness: an element is truthy iff it has
children (the behaviour the code relies on in root.findall(...) if root
else []). -/
def elemTruthy (e : XElem) : Bool :=
  !e.children.isEmpty

/-! ### app.py: filter_data, get_id_from_name, parse_xml -/

/-- Truthiness of the keys / keys_to_remove arguments of filter_data
(None and an empty sequence are falsy). -/
def pyTruthyKeys : Option (List String) → Bool
  | none => false
  | some l => !l.isEmpty

/-- filter_data (src/app.py lines 33-40): raises ValueError when both
selectors are truthy, otherwise keeps the keys selected by the truthy
selector; with neither selector truthy the comprehension keeps nothing. -/
def filter_data (data : List (String × JVal))
    (keys keys_to_remove : Option (List String)) : Except PyErr (List (String × JVal)) :=
  if pyTruthyKeys keys && pyTruthyKeys keys_to_remove then
    Except.error (PyErr.exc "ValueError: Both keys and keys_to_remove provided")
  else
    Except.ok (data.filter (fun p =>
      (pyTruthyKeys keys && (keys.getD []).contains p.1) ||
      (pyTruthyKeys keys_to_remove && !((keys_to_remove.getD []).contains p.1))))

/-- get_id_from_name (src/app.py lines 50-51). The second parameter is
unused by the source: the code replaces the literal string "prefix_"
(the f-string contains no braces), not the collection prefix. -/
def get_id_from_name (name : String) (_pre : String) : String :=
  pyReplace (pyReplace (pyRemoveSuffix name ".xml") "prefix_" "") "_" " "

/-- The dictionary parse_xml returns on the non-exceptional paths. -/
structure XmlInfo where
  firstPage : Option String
  lastPage : Option String
  text : Option String
  deriving DecidableEq

/-- pages[i].attrib with the key n, guarded by len(pages): none when the
list is empty, KeyError when the element has no n attribute. -/
def pyAttrN (o : Option XElem) : Except PyErr (Option String) :=
  match o with
  | none => Except.ok none
  | some e =>
    match sGet e.attrib "n" with
    | some v => Except.ok (some v)
    | none => Except.error (PyErr.exc "KeyError: n")

/-- parse_xml (src/app.py lines 53-72). A non-string url makes requests
raise MissingSchema, a RequestException, which the function catches and
turns into None, as it does for any fetch failure; a ParseError leaves
root as None; the dictionary is built with firstPage evaluated before
lastPage, and text uses the truthiness of the response object. -/
def parse_xml (net : String → Option Response) (fromstring : String → Option XElem)
    (url : JVal) : Except PyErr (Option XmlInfo) :=
  match url with
  | JVal.str u =>
    match net u with
    | none => Except.ok none
    | some response =>
      let root := fromstring response.text
      let pages := match root with
        | some r => if elemTruthy r then teiPBs r else []
        | none => []
      match pyAttrN pages.head?, pyAttrN pages.getLast? with
      | Except.ok fp, Except.ok lp =>
        Except.ok (some (XmlInfo.mk fp lp
          (if responseTruthy response then some response.text else none)))
      | Except.error er, _ => Except.error er
      | _, Except.error er => Except.error er
  | _ => Except.ok none

/-! ### app.py: load_toolbox -/

/-- The mutable state of the load_toolbox loop: committed records, the
working field mapping, and the current record id. -/
structure TState where
  morph : List (String × List (String × String))
  values : List (String × String)
  cur_id : Option String

/-- A stripped line is a marker line when it starts with a backslash and
contains a space. -/
def isMarkerLine (line : String) : Bool :=
  pyStartsWith line "\\" && pyContains line ' '

/-- One iteration of the load_toolbox loop (src/app.py lines 89-100). -/
def toolboxStep (st : TState) (rawLine : String) : TState :=
  let line := pyStrip rawLine
  if !(isMarkerLine line) then
    { morph := (match st.cur_id with
        | some i => sSet st.morph i st.values
        | none => st.morph),
      values := [],
      cur_id := st.cur_id }
  else
    let mv := splitFirstSpace line
    { morph := st.morph,
      values := sSet st.values mv.1 mv.2,
      cur_id := if mv.1 = "\\ref" then some mv.2 else st.cur_id }

/-- The records accumulated by the load_toolbox loop over the given lines. -/
def toolboxRecords (lines : List String) : List (String × List (String × String)) :=
  (lines.foldl toolboxStep ⟨[], [], none⟩).morph

/-- The toolbox records as the JSON-shaped value stored under the morph key. -/
def toolboxRecordsJ (recs : List (String × List (String × String))) : JVal :=
  JVal.obj (recs.map (fun p => (p.1, JVal.obj (p.2.map (fun q => (q.1, JVal.str q.2))))))

/-- load_toolbox (src/app.py lines 74-102). The url argument is the result
of dict.get, so none when the annotation file is absent; a falsy url
returns an empty dictionary; a fetch failure is caught and returns an
empty dictionary; a non-string url makes requests raise MissingSchema,
a RequestException, likewise caught; otherwise the fetched body is split
into lines and parsed, and the result always carries the morph key. -/
def load_toolbox (net : String → Option Response) (url : Option JVal) :
    List (String × JVal) :=
  match url with
  | none => []
  | some u =>
    if !jvalTruthy u then []
    else
      match u with
      | JVal.str s =>
        match net s with
        | none => []
        | some response =>
          [("morph", toolboxRecordsJ (toolboxRecords (pySplitlines response.text)))]
      | _ => []

/-! ### app.py: get_toolbox_filenames, load_source, load_data -/

/-- The dictionary comprehension of get_toolbox_filenames: for each row,
evaluate row with the name key, then row with the download_url key, and
store the pair (an unhashable key would raise TypeError). -/
def rowsToDict (acc : List (JVal × JVal)) : List JVal → Except PyErr (List (JVal × JVal))
  | [] => Except.ok acc
  | row :: rest =>
    match jvalIndex row "name" with
    | Except.error er => Except.error er
    | Except.ok k =>
      match jvalIndex row "download_url" with
      | Except.error er => Except.error er
      | Except.ok v =>
        if jvalHashable k then rowsToDict (jdictSet acc k v) rest
        else Except.error (PyErr.exc "TypeError: unhashable type")

/-- get_toolbox_filenames (src/app.py lines 104-109). The guard tests the
truthiness of the response object itself (status below 400) conjoined
with the status not being 200; when the guard fails the function builds
the name-to-download-url dictionary from the parsed JSON body. -/
def get_toolbox_filenames (net : String → Option Response) (gh_api_url : String) :
    Except PyErr (List (JVal × JVal)) :=
  match net gh_api_url with
  | none => Except.error (PyErr.exc "RequestException")
  | some response =>
    if responseTruthy response && response.status_code != 200 then Except.ok []
    else
      match response.getJson with
      | Except.error er => Except.error er
      | Except.ok body =>
        match jvalIter body with
        | Except.error er => Except.error er
        | Except.ok rows => rowsToDict [] rows

/-- JSON encoding of an optional string (Python None becomes null). -/
def optJ : Option String → JVal
  | none => JVal.null
  | some s => JVal.str s

/-- The parse_xml dictionary as stored in an item. -/
def xmlInfoDict (xi : XmlInfo) : List (String × JVal) :=
  [("firstPage", optJ xi.firstPage), ("lastPage", optJ xi.lastPage),
   ("text", optJ xi.text)]

/-- An aggregated item: a Python dictionary with JSON values. -/
abbrev Item : Type := List (String × JVal)

/-- Python dict union d1 | d2: keys of d2 update or extend d1 in order. -/
def dictMerge (d1 d2 : List (String × JVal)) : List (String × JVal) :=
  d2.foldl (fun acc p => sSet acc p.1 p.2) d1

/-- The body of the per-element loop of load_source (src/app.py lines
121-136): skip names not ending in xml, load the matching annotation
file (absent lookup gives an empty dictionary), parse the document, and
when parsing yielded a value merge id and title with the document fields
and the morph dictionary; a None parse result skips the item. -/
def process_entry (net : String → Option Response) (fromstring : String → Option XElem)
    (repo : String) (tb : List (JVal × JVal)) (elem : JVal) : Except PyErr (Option Item) :=
  match jvalIndex elem "name" with
  | Except.error er => Except.error er
  | Except.ok nameJ =>
    match pyAsStr nameJ with
    | Except.error er => Except.error er
    | Except.ok name =>
      if !(pyEndsWith name "xml") then Except.ok none
      else
        let morph_info := load_toolbox net (jdictGetS tb (pyReplace name ".xml" ".txt"))
        match jvalIndex elem "download_url" with
        | Except.error er => Except.error er
        | Except.ok durl =>
          match parse_xml net fromstring durl with
          | Except.error er => Except.error er
          | Except.ok none => Except.ok none
          | Except.ok (some xi) =>
            Except.ok (some (dictMerge (dictMerge
              [("id", JVal.str (pyReplace name ".xml" "")),
               ("title", JVal.str (get_id_from_name name repo))]
              (xmlInfoDict xi)) morph_info))

/-- The load_source loop over the listed entries, accumulating results. -/
def processEntries (net : String → Option Response) (fromstring : String → Option XElem)
    (repo : String) (tb : List (JVal × JVal)) :
    List JVal → List Item → Except PyErr (List Item)
  | [], results => Except.ok results
  | e :: rest, results =>
    match process_entry net fromstring repo tb e with
    | Except.error er => Except.error er
    | Except.ok (some it) => processEntries net fromstring repo tb rest (results ++ [it])
    | Except.ok none => processEntries net fromstring repo tb rest results

/-- load_source (src/app.py lines 111-138). The toolbox listing is fetched
first; the document-repository listing guard again tests the truthiness
of the response object conjoined with the status not being 200, and on
success iterates the parsed JSON body. -/
def load_source (net : String → Option Response) (fromstring : String → Option XElem)
    (tbUrl user repo : String) : Except PyErr (List Item) :=
  match get_toolbox_filenames net tbUrl with
  | Except.error er => Except.error er
  | Except.ok toolbox_files_urls =>
    match net ("https://api.github.com/repos/" ++ user ++ "/" ++ repo ++ "-TEI/contents/") with
    | none => Except.error (PyErr.exc "RequestException")
    | some response =>
      if responseTruthy response && response.status_code != 200 then
        Except.error (PyErr.exitCode 1)
      else
        match response.getJson with
        | Except.error er => Except.error er
        | Except.ok body =>
          match jvalIter body with
          | Except.error er => Except.error er
          | Except.ok rows => processEntries net fromstring repo toolbox_files_urls rows []

/-- One collection of the catalog: its metadata dictionary and its items. -/
abbrev Collection : Type := List (String × JVal) × List Item

/-- load_data (src/app.py lines 141-157) over the already-parsed descriptor
list: for each source build the metadata dictionary, then aggregate its
items with user postime and the id with underscores removed. -/
def load_data (net : String → Option Response) (fromstring : String → Option XElem)
    (tbUrl : String) : List JVal → List Collection → Except PyErr (List Collection)
  | [], result => Except.ok result
  | source :: rest, result =>
    match jvalIndex source "id" with
    | Except.error er => Except.error er
    | Except.ok idJ =>
      match jvalIndex source "title" with
      | Except.error er => Except.error er
      | Except.ok titleJ =>
        match jvalIndex source "description" with
        | Except.error er => Except.error er
        | Except.ok descJ =>
          match pyAsStr idJ with
          | Except.error er => Except.error er
          | Except.ok idStr =>
            match load_source net fromstring tbUrl "postime" (pyReplace idStr "_" "") with
            | Except.error er => Except.error er
            | Except.ok sermons =>
              load_data net fromstring tbUrl rest
                (result ++ [([("id", idJ), ("title", titleJ), ("description", descJ)], sermons)])

/-! ### Statement-side helper definitions -/

/-- The item list contributed by one listed entry: a singleton when the
loop body produced an item, empty otherwise. -/
def entryItems (net : String → Option Response) (fromstring : String → Option XElem)
    (repo : String) (tb : List (JVal × JVal)) (e : JVal) : List Item :=
  match process_entry net fromstring repo tb e with
  | Except.ok (some it) => [it]
  | _ => []

/-- The marker/value pairs of one annotation block: the ref pair followed
by the split of each body line. -/
def blockPairs (refLine : String) (body : List String) : List (String × String) :=
  ("\\ref", (splitFirstSpace (pyStrip refLine)).2) ::
    body.map (fun l => splitFirstSpace (pyStrip l))

/-- The field mapping obtained by storing the pairs of a block in order. -/
def blockVals (refLine : String) (body : List String) : List (String × String) :=
  (blockPairs refLine body).foldl (fun a p => sSet a p.1 p.2) []

/-- The last value stored for a marker among a list of pairs. -/
def lastWins (ps : List (String × String)) (m : String) : Option String :=
  ps.foldl (fun acc p => if p.1 = m then some p.2 else acc) none

/-! ### Helper lemmas -/

lemma sGet_sSet {α : Type} (d : List (String × α)) (k : String) (v : α) (m : String) :
    sGet (sSet d k v) m = if k = m then some v else sGet d m := by
  induction d with
  | nil => simp [sSet, sGet]
  | cons hd tl ih =>
    obtain ⟨k2, v2⟩ := hd
    by_cases h : k2 = k
    · subst h
      by_cases h2 : k2 = m <;> simp [sSet, sGet, h2]
    · by_cases h2 : k2 = m
      · subst h2
        have hne : k ≠ k2 := fun hk => h hk.symm
        simp [sSet, sGet, h, hne]
      · simp [sSet, sGet, h, h2, ih]

lemma sGet_foldl_sSet {α : Type} (ps : List (String × α)) (init : List (String × α))
    (m : String) :
    sGet (ps.foldl (fun a p => sSet a p.1 p.2) init) m =
      ps.foldl (fun acc p => if p.1 = m then some p.2 else acc) (sGet init m) := by
  induction ps generalizing init with
  | nil => rfl
  | cons p rest ih =>
    simp only [List.foldl_cons]
    rw [ih (sSet init p.1 p.2), sGet_sSet]

lemma foldMarkerMorph (trailing : List String)
    (h : ∀ l ∈ trailing, isMarkerLine (pyStrip l) = true) (st : TState) :
    (trailing.foldl toolboxStep st).morph = st.morph := by
  induction trailing generalizing st with
  | nil => rfl
  | cons l rest ih =>
    have hl := h l (List.mem_cons_self l rest)
    have hrest : ∀ x ∈ rest, isMarkerLine (pyStrip x) = true :=
      fun x hx => h x (List.mem_cons_of_mem l hx)
    simp only [List.foldl_cons]
    rw [ih hrest]
    simp [toolboxStep, hl]

lemma foldMarkerLines (body : List String)
    (h : ∀ l ∈ body, isMarkerLine (pyStrip l) = true ∧
      (splitFirstSpace (pyStrip l)).1 ≠ "\\ref")
    (M : List (String × List (String × String))) (vals : List (String × String))
    (rid : String) :
    body.foldl toolboxStep (TState.mk M vals (some rid)) =
      TState.mk M ((body.map (fun l => splitFirstSpace (pyStrip l))).foldl
        (fun a p => sSet a p.1 p.2) vals) (some rid) := by
  induction body generalizing vals with
  | nil => rfl
  | cons l rest ih =>
    obtain ⟨h1, h2⟩ := h l (List.mem_cons_self l rest)
    have hrest := fun x hx => h x (List.mem_cons_of_mem l hx)
    simp only [List.foldl_cons, List.map_cons]
    rw [show toolboxStep (TState.mk M vals (some rid)) l =
        TState.mk M (sSet vals (splitFirstSpace (pyStrip l)).1
          (splitFirstSpace (pyStrip l)).2) (some rid) from by
      simp [toolboxStep, h1, h2]]
    exact ih hrest _

lemma teiPBs_of_no_children (e : XElem) (h : e.children.isEmpty = true) :
    teiPBs e = [] := by
  obtain ⟨t, a, cs⟩ := e
  cases cs with
  | nil => rfl
  | cons c rest => simp [XElem.children, List.isEmpty] at h

lemma mem_of_getLastEq {α : Type} : ∀ (l : List α) (a : α), l.getLast? = some a → a ∈ l
  | [], _, h => by simp [List.getLast?] at h
  | [x], a, h => by
    simp [List.getLast?] at h
    simp [h]
  | x :: y :: rest, a, h => by
    rw [List.getLast?_cons_cons] at h
    exact List.mem_cons_of_mem x (mem_of_getLastEq (y :: rest) a h)

lemma mem_of_headEq {α : Type} {l : List α} {a : α} (h : l.head? = some a) : a ∈ l := by
  cases l with
  | nil => simp [List.head?] at h
  | cons x rest =>
    simp [List.head?] at h
    simp [h]

lemma pyAttrN_bind (o : Option XElem)
    (h : ∀ e, o = some e → (sGet e.attrib "n").isSome = true) :
    pyAttrN o = Except.ok (o.bind (fun e => sGet e.attrib "n")) := by
  cases o with
  | none => rfl
  | some e =>
    obtain ⟨v, hv⟩ := Option.isSome_iff_exists.mp (h e rfl)
    simp [pyAttrN, hv]

lemma process_entry_eq (net : String → Option Response) (fromstring : String → Option XElem)
    (repo : String) (tb : List (JVal × JVal)) (e : JVal) (name : String)
    (hname : jvalIndex e "name" = Except.ok (JVal.str name))
    (hxml : pyEndsWith name "xml" = true) :
    process_entry net fromstring repo tb e =
      match jvalIndex e "download_url" with
      | Except.error er => Except.error er
      | Except.ok durl =>
        match parse_xml net fromstring durl with
        | Except.error er => Except.error er
        | Except.ok none => Except.ok none
        | Except.ok (some xi) =>
          Except.ok (some (dictMerge (dictMerge
            [("id", JVal.str (pyReplace name ".xml" "")),
             ("title", JVal.str (get_id_from_name name repo))]
            (xmlInfoDict xi))
            (load_toolbox net (jdictGetS tb (pyReplace name ".xml" ".txt"))))) := by
  unfold process_entry
  rw [hname]
  simp [pyAsStr, hxml]

lemma processEntries_ok_eq (net : String → Option Response)
    (fromstring : String → Option XElem) (repo : String) (tb : List (JVal × JVal)) :
    ∀ (rows : List JVal) (acc items : List Item),
      processEntries net fromstring repo tb rows acc = Except.ok items →
      items = rows.foldl (fun a e => a ++ entryItems net fromstring repo tb e) acc := by
  intro rows
  induction rows with
  | nil =>
    intro acc items h
    simp only [processEntries] at h
    cases h
    rfl
  | cons e rest ih =>
    intro acc items h
    simp only [processEntries] at h
    cases hp : process_entry net fromstring repo tb e with
    | error er => rw [hp] at h; cases h
    | ok o =>
      cases o with
      | none =>
        rw [hp] at h
        have := ih acc items h
        simpa [entryItems, hp] using this
      | some it =>
        rw [hp] at h
        have := ih (acc ++ [it]) items h
        simpa [entryItems, hp] using this

/-! ### Claim theorems -/

/-- C1: the claim states that every directory-listing response with a
non-success status makes get_toolbox_filenames return an empty mapping
rather than raise. The code violates this: a requests response with an
error status (here 404) is falsy, so the guard on line 106 is skipped and
the function falls through to iterating the JSON error object, raising
TypeError; the guard only fires for truthy non-200 responses such as 304. -/
theorem c1_remote_lister_error_status_raises :
    get_toolbox_filenames
      (fun _ => some (Response.mk 404 "Not Found"
        (some (JVal.obj [("message", JVal.str "Not Found")])))) "u"
      = Except.error (PyErr.exc "TypeError: string indices must be integers") ∧
    get_toolbox_filenames
      (fun _ => some (Response.mk 304 ""
        (some (JVal.obj [("message", JVal.str "x")])))) "u"
      = Except.ok [] :=
  ⟨rfl, rfl⟩

/-- C2: the claim states that a non-success status on the document
repository listing is logged and terminates the process via the fail-fast
branch, so no partial catalog is ever produced. The code violates this:
a 404 response is falsy, skipping the guard on line 117. With a JSON
array body the load continues and a catalog entry is produced; with the
JSON object body GitHub actually returns, iteration over the error object
raises an unlogged TypeError instead of reaching the logging sys.exit
branch, which only fires for truthy non-200 statuses such as 204. -/
theorem c2_listing_error_not_failfast :
    load_data
      (fun u => if u = "TB" then some (Response.mk 200 "" (some (JVal.arr [])))
                else some (Response.mk 404 "nf" (some (JVal.arr []))))
      (fun _ => none) "TB"
      [JVal.obj [("id", JVal.str "c1"), ("title", JVal.str "T"),
                 ("description", JVal.str "D")]] []
      = Except.ok [([("id", JVal.str "c1"), ("title", JVal.str "T"),
                     ("description", JVal.str "D")], [])] ∧
    load_data
      (fun u => if u = "TB" then some (Response.mk 200 "" (some (JVal.arr [])))
                else some (Response.mk 404 "nf"
                  (some (JVal.obj [("message", JVal.str "Not Found")]))))
      (fun _ => none) "TB"
      [JVal.obj [("id", JVal.str "c1"), ("title", JVal.str "T"),
                 ("description", JVal.str "D")]] []
      = Except.error (PyErr.exc "TypeError: string indices must be integers") ∧
    load_data
      (fun u => if u = "TB" then some (Response.mk 200 "" (some (JVal.arr [])))
                else some (Response.mk 204 "" (some (JVal.arr []))))
      (fun _ => none) "TB"
      [JVal.obj [("id", JVal.str "c1"), ("title", JVal.str "T"),
                 ("description", JVal.str "D")]] []
      = Except.error (PyErr.exitCode 1) :=
  ⟨rfl, rfl, rfl⟩

/-- C7: the claim states the derived title is the filename with the
extension stripped, the collection-name prefix stripped, and underscores
turned into spaces. The code violates this: get_id_from_name replaces the
literal string prefix followed by an underscore (the f-string on line 51
contains no braces), never the collection name, so a filename starting
with the collection prefix keeps it in the title. -/
theorem c7_title_keeps_collection_name :
    get_id_from_name "Yberman_Sermon_1.xml" "Yberman" = "Yberman Sermon 1" ∧
    get_id_from_name "Yberman_Sermon_1.xml" "Yberman" ≠ "Sermon 1" ∧
    get_id_from_name "prefix_Sermon.xml" "Yberman" = "Sermon" :=
  ⟨rfl, by decide, rfl⟩

/-- C8: the claim states text is the raw response body whenever a response
was received, null only when no response arrived. The code violates this:
the text field uses the truthiness of the response object, which is its
status being below 400, so a received 404 response yields a null text;
with a 200 status the raw body of malformed XML is indeed retained. -/
theorem c8_text_dropped_for_error_status :
    parse_xml (fun _ => some (Response.mk 404 "<broken" none)) (fun _ => none)
      (JVal.str "u")
      = Except.ok (some (XmlInfo.mk none none none)) ∧
    parse_xml (fun _ => some (Response.mk 200 "<broken" none)) (fun _ => none)
      (JVal.str "u")
      = Except.ok (some (XmlInfo.mk none none (some "<broken"))) :=
  ⟨rfl, rfl⟩

/-- C10: with neither selector truthy filter_data returns the empty
mapping, not the unchanged input, and with both selectors truthy
(provided, in the sense of non-empty, as in the claim) it raises
ValueError. -/
theorem c10_filter_data_neither_or_both (data : List (String × JVal))
    (keys ktr : Option (List String)) :
    (pyTruthyKeys keys = false → pyTruthyKeys ktr = false →
      filter_data data keys ktr = Except.ok []) ∧
    (pyTruthyKeys keys = true → pyTruthyKeys ktr = true →
      filter_data data keys ktr =
        Except.error (PyErr.exc "ValueError: Both keys and keys_to_remove provided")) := by
  constructor
  · intro h1 h2
    simp [filter_data, h1, h2]
  · intro h1 h2
    simp [filter_data, h1, h2]

/-- Witness for C10 at a non-empty input dictionary. -/
theorem c10_filter_data_neither_or_both_witness :
    filter_data [("a", JVal.null)] none none = Except.ok [] ∧
    filter_data [("a", JVal.null)] (some ["k"]) (some ["r"]) =
      Except.error (PyErr.exc "ValueError: Both keys and keys_to_remove provided") :=
  ⟨(c10_filter_data_neither_or_both [("a", JVal.null)] none none).1 rfl rfl,
   (c10_filter_data_neither_or_both [("a", JVal.null)] (some ["k"]) (some ["r"])).2 rfl rfl⟩

/-- C9: a trailing annotation block consisting only of marker lines, not
followed by a blank or other non-marker line before end of input, is
never committed: the parsed records are exactly those of the input
without it. -/
theorem c9_trailing_block_dropped (lines trailing : List String)
    (h : ∀ l ∈ trailing, isMarkerLine (pyStrip l) = true) :
    toolboxRecords (lines ++ trailing) = toolboxRecords lines := by
  unfold toolboxRecords
  rw [List.foldl_append]
  exact foldMarkerMorph trailing h _

/-- Witness for C9: a complete record followed by a dangling record block
with no terminating blank line parses to the records of the first block only. -/
theorem c9_trailing_block_dropped_witness :
    toolboxRecords (["\\ref r1", "\\m a", ""] ++ ["\\ref r2", "\\m b"]) =
      toolboxRecords ["\\ref r1", "\\m a", ""] :=
  c9_trailing_block_dropped ["\\ref r1", "\\m a", ""] ["\\ref r2", "\\m b"] (by decide)

/-- C4: an annotation input consisting of a ref marker line, immediately
followed by other marker lines, then a blank line, parses to exactly one
record keyed by the ref id; the record stores every marker/value pair of
the block, with the last value winning when a marker repeats. -/
theorem c4_single_block_single_record (net : String → Option Response)
    (u : String) (resp : Response) (refLine blank : String) (body : List String)
    (m : String)
    (hnet : net u = some resp)
    (hu : jvalTruthy (JVal.str u) = true)
    (hsplit : pySplitlines resp.text = refLine :: (body ++ [blank]))
    (h1 : isMarkerLine (pyStrip refLine) = true)
    (h2 : (splitFirstSpace (pyStrip refLine)).1 = "\\ref")
    (h3 : ∀ l ∈ body, isMarkerLine (pyStrip l) = true ∧
      (splitFirstSpace (pyStrip l)).1 ≠ "\\ref")
    (h4 : isMarkerLine (pyStrip blank) = false) :
    load_toolbox net (some (JVal.str u)) =
      [("morph", toolboxRecordsJ
        [((splitFirstSpace (pyStrip refLine)).2, blockVals refLine body)])] ∧
    sGet (blockVals refLine body) m = lastWins (blockPairs refLine body) m := by
  constructor
  · have hlt : load_toolbox net (some (JVal.str u)) =
        [("morph", toolboxRecordsJ (toolboxRecords (pySplitlines resp.text)))] := by
      simp [load_toolbox, hu, hnet]
    rw [hlt, hsplit]
    unfold toolboxRecords
    rw [List.foldl_cons]
    rw [show toolboxStep (TState.mk [] [] none) refLine =
        TState.mk [] [("\\ref", (splitFirstSpace (pyStrip refLine)).2)]
          (some (splitFirstSpace (pyStrip refLine)).2) from by
      simp [toolboxStep, h1, h2, sSet]]
    rw [List.foldl_append, foldMarkerLines body h3]
    rw [List.foldl_cons]
    rw [show toolboxStep
        (TState.mk []
          ((body.map (fun l => splitFirstSpace (pyStrip l))).foldl
            (fun a p => sSet a p.1 p.2)
            [("\\ref", (splitFirstSpace (pyStrip refLine)).2)])
          (some (splitFirstSpace (pyStrip refLine)).2)) blank =
        TState.mk
          [((splitFirstSpace (pyStrip refLine)).2,
            (body.map (fun l => splitFirstSpace (pyStrip l))).foldl
              (fun a p => sSet a p.1 p.2)
              [("\\ref", (splitFirstSpace (pyStrip refLine)).2)])]
          [] (some (splitFirstSpace (pyStrip refLine)).2) from by
      simp [toolboxStep, h4, sSet]]
    simp only [List.foldl_nil]
    unfold blockVals blockPairs
    rw [List.foldl_cons]
    rfl
  · unfold blockVals lastWins
    rw [sGet_foldl_sSet]
    rfl

/-- Witness for C4: a block of one ref line and two repeated marker lines,
terminated by a blank line. -/
theorem c4_single_block_single_record_witness :
    load_toolbox (fun _ => some (Response.mk 200 "\\ref r1\n\\m x\n\\m y\n\n" none))
      (some (JVal.str "U")) =
      [("morph", toolboxRecordsJ
        [((splitFirstSpace (pyStrip "\\ref r1")).2, blockVals "\\ref r1" ["\\m x", "\\m y"])])] ∧
    sGet (blockVals "\\ref r1" ["\\m x", "\\m y"]) "\\m" =
      lastWins (blockPairs "\\ref r1" ["\\m x", "\\m y"]) "\\m" :=
  c4_single_block_single_record
    (fun _ => some (Response.mk 200 "\\ref r1\n\\m x\n\\m y\n\n" none))
    "U" (Response.mk 200 "\\ref r1\n\\m x\n\\m y\n\n" none)
    "\\ref r1" "" ["\\m x", "\\m y"] "\\m"
    rfl rfl rfl rfl rfl (by decide) rfl

/-- C5: an item whose filename has no matching annotation file in the
annotation-file listing (the dict.get lookup of the filename with txt
extension returns None) carries no morph key at all. -/
theorem c5_absent_annotation_file_no_morph_key (net : String → Option Response)
    (fromstring : String → Option XElem) (repo : String) (tb : List (JVal × JVal))
    (elem : JVal) (name : String) (it : Item)
    (hname : jvalIndex elem "name" = Except.ok (JVal.str name))
    (hxml : pyEndsWith name "xml" = true)
    (htb : jdictGetS tb (pyReplace name ".xml" ".txt") = none)
    (hit : process_entry net fromstring repo tb elem = Except.ok (some it)) :
    sGet it "morph" = none := by
  rw [process_entry_eq net fromstring repo tb elem name hname hxml, htb] at hit
  cases hdu : jvalIndex elem "download_url" with
  | error er => rw [hdu] at hit; cases hit
  | ok durl =>
    rw [hdu] at hit
    dsimp only at hit
    cases hpx : parse_xml net fromstring durl with
    | error er => rw [hpx] at hit; cases hit
    | ok o =>
      cases o with
      | none => rw [hpx] at hit; cases hit
      | some xi =>
        rw [hpx] at hit
        dsimp only at hit
        cases hit
        rfl

/-- Witness for C5: an entry with no matching annotation file whose
document parses; the produced item has no morph key. -/
theorem c5_absent_annotation_file_no_morph_key_witness :
    process_entry (fun _ => some (Response.mk 200 "<TEI/>" none))
      (fun _ => some (XElem.mk "r" [] [])) "R" []
      (JVal.obj [("name", JVal.str "b.xml"), ("download_url", JVal.str "D")])
      = Except.ok (some [("id", JVal.str "b"), ("title", JVal.str "b"),
          ("firstPage", JVal.null), ("lastPage", JVal.null),
          ("text", JVal.str "<TEI/>")]) ∧
    sGet [("id", JVal.str "b"), ("title", JVal.str "b"),
          ("firstPage", JVal.null), ("lastPage", JVal.null),
          ("text", JVal.str "<TEI/>")] "morph" = none :=
  ⟨rfl,
   c5_absent_annotation_file_no_morph_key
     (fun _ => some (Response.mk 200 "<TEI/>" none))
     (fun _ => some (XElem.mk "r" [] [])) "R" []
     (JVal.obj [("name", JVal.str "b.xml"), ("download_url", JVal.str "D")])
     "b.xml" _ rfl rfl rfl rfl⟩

/-- C6: for a successfully fetched (status below 400) and successfully
parsed document whose page-break elements all carry an n attribute,
parse_xml returns firstPage and lastPage as the n attribute of the first
and last TEI pb descendant in document order, and text as the raw body;
with zero pb elements both pages are none (null) and text is the body. -/
theorem c6_first_last_page (net : String → Option Response)
    (fromstring : String → Option XElem) (u : String) (resp : Response) (root : XElem)
    (hnet : net u = some resp)
    (hok : resp.status_code < 400)
    (hroot : fromstring resp.text = some root)
    (hn : ∀ e ∈ teiPBs root, (sGet e.attrib "n").isSome = true) :
    parse_xml net fromstring (JVal.str u) =
      Except.ok (some (XmlInfo.mk
        ((teiPBs root).head?.bind (fun e => sGet e.attrib "n"))
        ((teiPBs root).getLast?.bind (fun e => sGet e.attrib "n"))
        (some resp.text))) := by
  have htr : responseTruthy resp = true := by
    simp only [responseTruthy, decide_eq_true_eq]
    exact hok
  have hpages : (match fromstring resp.text with
      | some r => if elemTruthy r then teiPBs r else []
      | none => []) = teiPBs root := by
    rw [hroot]
    by_cases hc : elemTruthy root = true
    · simp [hc]
    · have hch : root.children.isEmpty = true := by
        simpa [elemTruthy] using hc
      simp [hc, teiPBs_of_no_children root hch]
  have hfst : pyAttrN (teiPBs root).head? =
      Except.ok ((teiPBs root).head?.bind (fun e => sGet e.attrib "n")) :=
    pyAttrN_bind _ (fun e he => hn e (mem_of_headEq he))
  have hlst : pyAttrN (teiPBs root).getLast? =
      Except.ok ((teiPBs root).getLast?.bind (fun e => sGet e.attrib "n")) :=
    pyAttrN_bind _ (fun e he => hn e (mem_of_getLastEq _ e he))
  unfold parse_xml
  dsimp only
  rw [hnet]
  dsimp only
  rw [hpages, hfst, hlst]
  simp [htr]

/-- Witness for C6: three pb elements with n attributes 1, 2, 3 in
document order, one of them nested, over a 200 response. -/
theorem c6_first_last_page_witness :
    parse_xml (fun _ => some (Response.mk 200 "B" none))
      (fun _ => some (XElem.mk "TEI" []
        [XElem.mk pbTag [("n", "1")] [],
         XElem.mk "d" [] [XElem.mk pbTag [("n", "2")] []],
         XElem.mk pbTag [("n", "3")] []]))
      (JVal.str "u")
      = Except.ok (some (XmlInfo.mk (some "1") (some "3") (some "B"))) :=
  c6_first_last_page (fun _ => some (Response.mk 200 "B" none))
    (fun _ => some (XElem.mk "TEI" []
      [XElem.mk pbTag [("n", "1")] [],
       XElem.mk "d" [] [XElem.mk pbTag [("n", "2")] []],
       XElem.mk pbTag [("n", "3")] []]))
    "u" (Response.mk 200 "B" none)
    (XElem.mk "TEI" []
      [XElem.mk pbTag [("n", "1")] [],
       XElem.mk "d" [] [XElem.mk pbTag [("n", "2")] []],
       XElem.mk pbTag [("n", "3")] []])
    rfl (by decide) rfl (by decide)

/-- C3: when the load_source loop over the listed entries succeeds, the
produced item list is exactly the concatenation of the per-entry
contributions; a listed xml entry contributes an item if and only if
parse_xml returned a non-null result for its download url, and in
particular a network error while fetching the document (net returns none,
a raised RequestException) contributes nothing. -/
theorem c3_item_iff_parse (net : String → Option Response)
    (fromstring : String → Option XElem) (repo : String) (tb : List (JVal × JVal))
    (rows : List JVal) (items : List Item) (e : JVal) (name : String) (durl : JVal)
    (hok : processEntries net fromstring repo tb rows [] = Except.ok items)
    (_he : e ∈ rows)
    (hname : jvalIndex e "name" = Except.ok (JVal.str name))
    (hxml : pyEndsWith name "xml" = true)
    (hdu : jvalIndex e "download_url" = Except.ok durl) :
    items = rows.foldl (fun a el => a ++ entryItems net fromstring repo tb el) [] ∧
    (entryItems net fromstring repo tb e ≠ [] ↔
      ∃ xi, parse_xml net fromstring durl = Except.ok (some xi)) ∧
    (∀ u2, durl = JVal.str u2 → net u2 = none →
      entryItems net fromstring repo tb e = []) := by
  have hpe := process_entry_eq net fromstring repo tb e name hname hxml
  refine ⟨processEntries_ok_eq net fromstring repo tb rows [] items hok, ?_, ?_⟩
  · unfold entryItems
    rw [hpe, hdu]
    dsimp only
    cases hpx : parse_xml net fromstring durl with
    | error er => simp [hpx]
    | ok o =>
      cases o with
      | none => simp
      | some xi => simp
  · intro u2 hd2 hn2
    subst hd2
    unfold entryItems
    rw [hpe, hdu]
    dsimp only
    rw [show parse_xml net fromstring (JVal.str u2) = Except.ok none from by
      simp [parse_xml, hn2]]

/-- Witness for C3: two listed entries, the first with a reachable
document, the second failing with a network error; the loop succeeds and
the conclusion is instantiated at the failing entry. -/
theorem c3_item_iff_parse_witness :
    processEntries
      (fun u => if u = "A" then some (Response.mk 200 "X" none) else none)
      (fun _ => none) "R" []
      [JVal.obj [("name", JVal.str "a.xml"), ("download_url", JVal.str "A")],
       JVal.obj [("name", JVal.str "b.xml"), ("download_url", JVal.str "B")]] []
      = Except.ok [[("id", JVal.str "a"), ("title", JVal.str "a"),
          ("firstPage", JVal.null), ("lastPage", JVal.null),
          ("text", JVal.str "X")]] ∧
    ([[("id", JVal.str "a"), ("title", JVal.str "a"),
       ("firstPage", JVal.null), ("lastPage", JVal.null),
       ("text", JVal.str "X")]] : List Item) =
      ([JVal.obj [("name", JVal.str "a.xml"), ("download_url", JVal.str "A")],
        JVal.obj [("name", JVal.str "b.xml"), ("download_url", JVal.str "B")]].foldl
        (fun a el => a ++ entryItems
          (fun u => if u = "A" then some (Response.mk 200 "X" none) else none)
          (fun _ => none) "R" [] el) []) ∧
    (entryItems (fun u => if u = "A" then some (Response.mk 200 "X" none) else none)
        (fun _ => none) "R" []
        (JVal.obj [("name", JVal.str "b.xml"), ("download_url", JVal.str "B")]) ≠ [] ↔
      ∃ xi, parse_xml
        (fun u => if u = "A" then some (Response.mk 200 "X" none) else none)
        (fun _ => none) (JVal.str "B") = Except.ok (some xi)) ∧
    (∀ u2, JVal.str "B" = JVal.str u2 →
      (fun u => if u = "A" then some (Response.mk 200 "X" none) else none) u2 = none →
      entryItems (fun u => if u = "A" then some (Response.mk 200 "X" none) else none)
        (fun _ => none) "R" []
        (JVal.obj [("name", JVal.str "b.xml"), ("download_url", JVal.str "B")]) = []) := by
  refine ⟨rfl, ?_⟩
  exact c3_item_iff_parse
    (fun u => if u = "A" then some (Response.mk 200 "X" none) else none)
    (fun _ => none) "R" []
    [JVal.obj [("name", JVal.str "a.xml"), ("download_url", JVal.str "A")],
     JVal.obj [("name", JVal.str "b.xml"), ("download_url", JVal.str "B")]]
    [[("id", JVal.str "a"), ("title", JVal.str "a"),
      ("firstPage", JVal.null), ("lastPage", JVal.null), ("text", JVal.str "X")]]
    (JVal.obj [("name", JVal.str "b.xml"), ("download_url", JVal.str "B")])
    "b.xml" (JVal.str "B")
    rfl
    (List.mem_cons_of_mem _ (List.mem_cons_self _ _))
    rfl rfl rfl
